import Mathlib

/-!
Verification of the QuasarFlow API ownership-verification core:
the wallet ownership verification use case, the SEP-10 challenge
generator, the JWT auth middleware, and the per-client rate limiter.

Go strings are byte slices, so strings are embedded as lists of bytes
(`GoString := List Nat`).  External cryptography (ed25519 signature
verification) is a parameter of the embedding; address decoding
(strkey base32 + CRC16-XModem checksum) and base64 decoding are
embedded concretely so that everything else is executable.
-/

namespace QuasarFlow

/-- A Go string: a list of byte values. -/
abbrev GoString := List Nat

/-- Bytes of an ASCII Lean string literal (used only to write concrete inputs). -/
def strBytes (s : String) : GoString := s.data.map Char.toNat

deriving instance DecidableEq for Except

/-! ### strkey address decoding (github.com/stellar/go/strkey, used by keypair.ParseAddress)

`keypair.ParseAddress` calls `strkey.Decode(strkey.VersionByteAccountID, address)`:
base32-decode the 56-character string (alphabet A-Z, 2-7) into 35 bytes,
require version byte `6 << 3 = 48`, and require the CRC16-XModem checksum of
the first 33 bytes to equal the last two bytes (little-endian). -/

/-- Value of one base32 symbol (Go `base32.StdEncoding` alphabet A-Z2-7), or none. -/
def base32Val (b : Nat) : Option Nat :=
  if 65 ≤ b ∧ b ≤ 90 then some (b - 65)
  else if 50 ≤ b ∧ b ≤ 55 then some (b - 50 + 26)
  else none

/-- Five output bytes of one 8-symbol base32 group (40 bits, MSB first). -/
def base32Group (v1 v2 v3 v4 v5 v6 v7 v8 : Nat) : GoString :=
  let g := ((((((v1 * 32 + v2) * 32 + v3) * 32 + v4) * 32 + v5) * 32 + v6) * 32 + v7) * 32 + v8
  [g / 4294967296, g / 16777216 % 256, g / 65536 % 256, g / 256 % 256, g % 256]

/-- Base32-decode a string whose length is a multiple of 8 (Go decodes
8-symbol groups into 5 bytes); none on a bad symbol or a ragged tail. -/
def base32Decode : GoString → Option GoString
  | [] => some []
  | c1 :: c2 :: c3 :: c4 :: c5 :: c6 :: c7 :: c8 :: rest =>
    match base32Val c1, base32Val c2, base32Val c3, base32Val c4,
          base32Val c5, base32Val c6, base32Val c7, base32Val c8 with
    | some v1, some v2, some v3, some v4, some v5, some v6, some v7, some v8 =>
      match base32Decode rest with
      | some tail => some (base32Group v1 v2 v3 v4 v5 v6 v7 v8 ++ tail)
      | none => none
    | _, _, _, _, _, _, _, _ => none
  | _ => none

/-- One CRC16-XModem shift round (polynomial 0x1021). -/
def crc16Round (c : Nat) : Nat :=
  if c &&& 32768 ≠ 0 then ((c <<< 1) ^^^ 4129) &&& 65535 else (c <<< 1) &&& 65535

/-- Fold one byte into the CRC16-XModem state: xor the byte into the
high bits, then eight shift rounds. -/
def crc16Byte (crc b : Nat) : Nat :=
  crc16Round (crc16Round (crc16Round (crc16Round (crc16Round (crc16Round
    (crc16Round (crc16Round ((crc ^^^ (b <<< 8)) &&& 65535))))))))

/-- CRC16-XModem of a byte string, initial value 0. -/
def crc16 (data : GoString) : Nat := data.foldl crc16Byte 0

/-- `keypair.ParseAddress` success: strkey decode with the account-id version byte. -/
def parseAddressOk (s : GoString) : Bool :=
  s.length = 56 &&
    match base32Decode s with
    | none => false
    | some raw =>
      raw.getD 0 0 = 48 &&
        crc16 (raw.take 33) = raw.getD 33 0 + 256 * raw.getD 34 0

/-! ### Stellar public key format checks -/

/-- `AccountHandler.isValidStellarPublicKey`:
`len(publicKey) == 56 && publicKey[0] == 'G'`; the byte access is guarded by
the length conjunct (Go `&&` short-circuits), which the `dif` mirrors. -/
def handlerIsValidStellarPublicKey (s : GoString) : Bool :=
  if h : s.length = 56 then s.get ⟨0, by omega⟩ == 71 else false

/-- `VerifyOwnershipUseCase.isValidStellarPublicKey`:
the same guarded length/leading-byte check, then `keypair.ParseAddress`. -/
def ucIsValidStellarPublicKey (s : GoString) : Bool :=
  if h : s.length = 56 then
    if s.get ⟨0, by omega⟩ == 71 then parseAddressOk s else false
  else false

/-! ### Go standard base64 decoding (encoding/base64 StdEncoding.DecodeString)

Go's decoder ignores carriage returns and newlines, requires the remaining
length to be a multiple of four, and allows `=` padding only at the very end
(one or two pad symbols in the final quad). -/

/-- Value of one base64 symbol in the standard alphabet, or none. -/
def base64Val (b : Nat) : Option Nat :=
  if 65 ≤ b ∧ b ≤ 90 then some (b - 65)
  else if 97 ≤ b ∧ b ≤ 122 then some (b - 97 + 26)
  else if 48 ≤ b ∧ b ≤ 57 then some (b - 48 + 52)
  else if b = 43 then some 62
  else if b = 47 then some 63
  else none

/-- Decode a base64 string quad by quad (after newline filtering). -/
def base64Quads : GoString → Option GoString
  | [] => some []
  | a :: b :: c :: d :: rest =>
    match base64Val a, base64Val b with
    | some va, some vb =>
      if d = 61 then
        if rest ≠ [] then none
        else if c = 61 then
          some [(va <<< 2) ||| (vb >>> 4)]
        else
          match base64Val c with
          | some vc => some [(va <<< 2) ||| (vb >>> 4), ((vb &&& 15) <<< 4) ||| (vc >>> 2)]
          | none => none
      else
        match base64Val c, base64Val d with
        | some vc, some vd =>
          match base64Quads rest with
          | some tail =>
            some (((va <<< 2) ||| (vb >>> 4)) ::
                  (((vb &&& 15) <<< 4) ||| (vc >>> 2)) ::
                  (((vc &&& 3) <<< 6) ||| vd) :: tail)
          | none => none
        | _, _ => none
    | _, _ => none
  | _ => none

/-- `base64.StdEncoding.DecodeString`: drop CR and LF, then decode quads. -/
def goBase64Decode (s : GoString) : Option GoString :=
  base64Quads (s.filter (fun b => b ≠ 13 && b ≠ 10))

/-! ### pkg/errors: the AppError taxonomy -/

/-- `pkg/errors.ErrorType`. -/
inductive ErrorType where
  | validation | notFound | unauthorized | conflict
  | internal | database | externalService | crypto | blockchain
  deriving DecidableEq, Repr

/-- `pkg/errors.AppError` (the wrapped underlying Go error is not modelled). -/
structure AppError where
  etype : ErrorType
  message : String
  statusCode : Nat
  deriving DecidableEq, Repr

/-- `errors.NewValidationError` (status 400; the detail string is not modelled). -/
def NewValidationError (message : String) : AppError :=
  ⟨ErrorType.validation, message, 400⟩

/-- `errors.NewInternalError` (status 500). -/
def NewInternalError (message : String) : AppError :=
  ⟨ErrorType.internal, message, 500⟩

/-- `errors.NewBlockchainError` (status 502). -/
def NewBlockchainError (message : String) : AppError :=
  ⟨ErrorType.blockchain, message, 502⟩

/-! ### internal/usecase/wallet/verify_ownership.go -/

/-- `VerifyOwnershipInput`. -/
structure VerifyOwnershipInput where
  publicKey : GoString
  signature : GoString
  message : GoString

/-- `VerifyOwnershipOutput`. -/
structure VerifyOwnershipOutput where
  isOwner : Bool
  message : String
  deriving DecidableEq, Repr

/-- `ChallengeOutput`. -/
structure ChallengeOutput where
  challenge : GoString
  message : String
  publicKey : GoString
  instructions : String
  deriving DecidableEq, Repr

/-- Ed25519 signature verification (`kp.Verify`) is external cryptography;
the embedding takes it as a parameter: arguments are the public key address,
the message bytes and the decoded signature bytes, the result is whether the
signature verifies. -/
abbrev SigVerifier := GoString → GoString → GoString → Bool

/-- `verifySignatureWithSDK`: parse the address, base64-decode the signature,
then verify; a verify failure is `ok false`, not an error. -/
def verifySignatureWithSDK (verify : SigVerifier)
    (publicKey message signature : GoString) : Except String Bool :=
  if ¬ parseAddressOk publicKey then
    Except.error "failed to parse public key"
  else
    match goBase64Decode signature with
    | none => Except.error "failed to decode signature"
    | some sigBytes =>
      if verify publicKey message sigBytes then Except.ok true else Except.ok false

/-- `VerifyOwnershipUseCase.Execute`. -/
def execute (verify : SigVerifier) (input : VerifyOwnershipInput) :
    Except AppError VerifyOwnershipOutput :=
  if ¬ ucIsValidStellarPublicKey input.publicKey then
    Except.ok ⟨false, "Invalid Stellar public key format"⟩
  else
    match verifySignatureWithSDK verify input.publicKey input.message input.signature with
    | Except.error _ => Except.error (NewInternalError "Failed to verify signature")
    | Except.ok false => Except.ok ⟨false, "Invalid signature or message"⟩
    | Except.ok true => Except.ok ⟨true, "Ownership verified successfully"⟩

/-- Decimal digits of a natural number, as bytes (`fmt.Sprintf` with the
decimal verb, for the non-negative values produced by `Unix`/`UnixNano`). -/
def decDigits (n : Nat) : GoString :=
  if h : n < 10 then [48 + n] else decDigits (n / 10) ++ [48 + n % 10]
termination_by n
decreasing_by exact Nat.div_lt_self (by omega) (by omega)

/-- `VerifyOwnershipUseCase.GenerateChallenge`: on a valid key the challenge is
`timestamp.nonce.domain.publicKey` (separator byte 46 is the dot). -/
def generateChallenge (domain : GoString) (nowSec nowNano : Nat)
    (publicKey : GoString) : ChallengeOutput :=
  if ¬ ucIsValidStellarPublicKey publicKey then
    ⟨[], "Invalid Stellar public key format", publicKey, ""⟩
  else
    ⟨decDigits nowSec ++ 46 :: (decDigits nowNano ++ 46 :: (domain ++ 46 :: publicKey)),
     "Sign this challenge with your private key to verify ownership",
     publicKey,
     "Use Stellar SDK to sign the challenge with your private key"⟩

/-- A Horizon transaction as used by the use case (times in Unix nanoseconds). -/
structure HorizonTransaction where
  sourceAccount : GoString
  ledgerCloseTime : Int
  deriving DecidableEq, Repr

/-- A Horizon account as used by the use case (times in Unix nanoseconds). -/
structure HorizonAccount where
  lastModifiedTime : Int
  deriving DecidableEq, Repr

/-- Nanoseconds in one hour (`time.Hour`). -/
def nanosPerHour : Int := 3600 * 1000000000

/-- `VerifyOwnershipUseCase.VerifyOwnershipByTransaction`; the ledger client
`GetTransaction` is a parameter, `none` standing for a client error, and `now`
is the time of the call in Unix nanoseconds. -/
def verifyOwnershipByTransaction (getTransaction : GoString → Option HorizonTransaction)
    (now : Int) (publicKey transactionHash : GoString) :
    Except AppError VerifyOwnershipOutput :=
  if ¬ ucIsValidStellarPublicKey publicKey then
    Except.ok ⟨false, "Invalid Stellar public key format"⟩
  else
    match getTransaction transactionHash with
    | none => Except.error (NewBlockchainError "Failed to fetch transaction")
    | some tx =>
      if tx.sourceAccount ≠ publicKey then
        Except.ok ⟨false, "Transaction was not signed by the specified wallet"⟩
      else if now - tx.ledgerCloseTime > 24 * nanosPerHour then
        Except.ok ⟨false, "Transaction is too old for ownership verification"⟩
      else
        Except.ok ⟨true, "Ownership verified via transaction"⟩

/-- `VerifyOwnershipUseCase.VerifyOwnershipByAccount`; `GetAccount` is a
parameter, `none` standing for an error ("account not found"). -/
def verifyOwnershipByAccount (getAccount : GoString → Option HorizonAccount)
    (now : Int) (publicKey : GoString) : Except AppError VerifyOwnershipOutput :=
  if ¬ ucIsValidStellarPublicKey publicKey then
    Except.ok ⟨false, "Invalid Stellar public key format"⟩
  else
    match getAccount publicKey with
    | none => Except.ok ⟨false, "Account not found on Stellar network"⟩
    | some account =>
      if ¬ (now - account.lastModifiedTime < 30 * 24 * nanosPerHour) then
        Except.ok ⟨false, "Account has no recent activity"⟩
      else
        Except.ok ⟨true, "Account exists and has recent activity"⟩

/-! ### internal/interface/http: response envelope and account handler -/

/-- The observable part of a written HTTP response: status code and the
envelope `success` flag. -/
structure HttpResponse where
  status : Nat
  success : Bool
  deriving DecidableEq, Repr

/-- `response.Success`: the success envelope with the given status. -/
def responseSuccess (status : Nat) : HttpResponse := ⟨status, true⟩

/-- `response.Error`: the error envelope with the given status. -/
def responseError (status : Nat) : HttpResponse := ⟨status, false⟩

/-- `AccountHandler.handleUseCaseError`: an `AppError` keeps its status code. -/
def handleUseCaseError (e : AppError) : HttpResponse := responseError e.statusCode

/-- `AccountHandler.VerifyOwnership` after JSON decoding: required-field
check, use case call, then the success envelope with 200 or 401. -/
def handleVerifyOwnership (verify : SigVerifier)
    (publicKey signature message : GoString) : HttpResponse :=
  if signature = [] ∨ message = [] then responseError 400
  else
    match execute verify ⟨publicKey, signature, message⟩ with
    | Except.error e => handleUseCaseError e
    | Except.ok out => responseSuccess (if out.isOwner then 200 else 401)

/-- `AccountHandler.VerifyOwnershipByTransaction` after JSON decoding. -/
def handleVerifyByTransaction (getTransaction : GoString → Option HorizonTransaction)
    (now : Int) (publicKey transactionHash : GoString) : HttpResponse :=
  if transactionHash = [] then responseError 400
  else
    match verifyOwnershipByTransaction getTransaction now publicKey transactionHash with
    | Except.error e => handleUseCaseError e
    | Except.ok out => responseSuccess (if out.isOwner then 200 else 401)

/-- `AccountHandler.VerifyOwnershipByAccount`: handler-level key format
check, use case call, then the success envelope with 200 or 401. -/
def handleVerifyByAccount (getAccount : GoString → Option HorizonAccount)
    (now : Int) (publicKey : GoString) : HttpResponse :=
  if ¬ handlerIsValidStellarPublicKey publicKey then responseError 400
  else
    match verifyOwnershipByAccount getAccount now publicKey with
    | Except.error e => handleUseCaseError e
    | Except.ok out => responseSuccess (if out.isOwner then 200 else 401)

/-! ### internal/interface/http/middleware/auth.go -/

/-- `JWTClaims`: the custom user-id and role claims plus the registered
claims set by `GenerateToken` (times in Unix seconds). -/
structure JWTClaims where
  userID : String
  role : String
  issuer : String
  subject : String
  issuedAt : Int
  expiresAt : Option Int
  notBefore : Option Int
  deriving DecidableEq, Repr

/-- A signed JWT as the middleware sees it: the header algorithm, the claims,
and the secret the signature was produced with (a shallow stand-in for the
HMAC signature itself: the signature verifies under `k` iff it was signed
with `k`). -/
structure SignedToken where
  alg : String
  claims : JWTClaims
  signedWith : String
  deriving DecidableEq, Repr

/-- `AuthConfig` (duration in seconds). -/
structure AuthConfig where
  secretKey : String
  tokenDuration : Int
  issuer : String

/-- The distinct rejection reasons of `validateToken`. -/
inductive AuthError where
  | invalidSigningMethod
  | signatureMismatch
  | invalidTokenIssuer
  | tokenExpired
  deriving DecidableEq, Repr

/-- The HMAC family accepted by the keyfunc type assertion
(`token.Method.(*jwt.SigningMethodHMAC)`). -/
def isHMACAlg (alg : String) : Bool :=
  alg = "HS256" || alg = "HS384" || alg = "HS512"

/-- Modelled from the spec: the third-party `jwt.ParseWithClaims` call in
`validateToken` (the jwt library is not part of this repository).  Per the
spec's token-service contract it rejects a non-HMAC header algorithm before
key lookup (via the keyfunc) and then verifies the signature with the
configured secret; on success the embedded claims are returned. -/
def jwtParseWithClaims (cfg : AuthConfig) (tok : SignedToken) :
    Except AuthError JWTClaims :=
  if ¬ isHMACAlg tok.alg then Except.error AuthError.invalidSigningMethod
  else if tok.signedWith ≠ cfg.secretKey then Except.error AuthError.signatureMismatch
  else Except.ok tok.claims

/-- `AuthMiddleware.validateToken`: parse (algorithm and signature checks),
then the issuer check, then the expiry check. -/
def validateToken (cfg : AuthConfig) (now : Int) (tok : SignedToken) :
    Except AuthError JWTClaims :=
  match jwtParseWithClaims cfg tok with
  | Except.error e => Except.error e
  | Except.ok claims =>
    if claims.issuer ≠ cfg.issuer then Except.error AuthError.invalidTokenIssuer
    else
      match claims.expiresAt with
      | some exp =>
        if exp < now then Except.error AuthError.tokenExpired else Except.ok claims
      | none => Except.ok claims

/-- `AuthMiddleware.GenerateToken`: HS256, issuer from the config, subject
and user-id the identity, issued-at and not-before now, expiry now plus the
configured duration, signed with the configured secret. -/
def generateToken (cfg : AuthConfig) (now : Int) (userID role : String) : SignedToken :=
  ⟨"HS256",
   ⟨userID, role, cfg.issuer, userID, now, some (now + cfg.tokenDuration), some now⟩,
   cfg.secretKey⟩

/-! ### internal/interface/http/middleware (rate limiter)

Times are rationals, in seconds.  The `golang.org/x/time/rate` bucket is
modelled from the spec's token-bucket contract: capacity `burst`, refill
`rate` tokens per second, `Allow` consumes one token when at least one is
available and leaves the state untouched otherwise; a fresh limiter starts
full. -/

/-- `RateLimitConfig`. -/
structure RateLimitConfig where
  requestsPerSecond : ℚ
  burstSize : Nat
  cleanupInterval : ℚ

/-- The state of one `rate.Limiter`: available tokens and the time of the
last state update. -/
structure TokenBucket where
  tokens : ℚ
  last : ℚ
  deriving DecidableEq, Repr

/-- Modelled from the spec: refill the bucket for the elapsed time, capped at
the burst size. -/
def bucketAdvance (cfg : RateLimitConfig) (now : ℚ) (b : TokenBucket) : ℚ :=
  min (cfg.burstSize : ℚ) (b.tokens + (now - b.last) * cfg.requestsPerSecond)

/-- Modelled from the spec: `limiter.Allow()`.  Consume one token if one is
available after refilling; on rejection the bucket is left unchanged. -/
def bucketAllow (cfg : RateLimitConfig) (now : ℚ) (b : TokenBucket) :
    Bool × TokenBucket :=
  let t := bucketAdvance cfg now b
  if 1 ≤ t then (true, ⟨t - 1, now⟩) else (false, b)

/-- Modelled from the spec: `rate.NewLimiter(rate, burst)` starts with a full
bucket. -/
def newBucket (cfg : RateLimitConfig) (now : ℚ) : TokenBucket :=
  ⟨(cfg.burstSize : ℚ), now⟩

/-- One entry of the limiter map (`RateLimiter` in the source). -/
structure LimiterEntry where
  bucket : TokenBucket
  lastSeen : ℚ
  deriving DecidableEq, Repr

/-- The key-to-entry map owned by `RateLimitMiddleware`. -/
def LimiterMap := String → Option LimiterEntry

/-- The middleware's initial empty map. -/
def emptyLimiterMap : LimiterMap := fun _ => none

/-- `getLimiter`: return the existing entry, or insert a fresh one with
`lastSeen = now`. -/
def getLimiter (cfg : RateLimitConfig) (now : ℚ) (m : LimiterMap) (key : String) :
    LimiterEntry × LimiterMap :=
  match m key with
  | some e => (e, m)
  | none =>
    let e : LimiterEntry := ⟨newBucket cfg now, now⟩
    (e, fun k => if k = key then some e else m k)

/-- `updateLastSeen`: set `lastSeen` to now, only if the entry exists. -/
def updateLastSeen (now : ℚ) (m : LimiterMap) (key : String) : LimiterMap :=
  fun k =>
    if k = key then
      match m key with
      | some e => some ⟨e.bucket, now⟩
      | none => none
    else m k

/-- Write back the (shared, mutated in place in Go) bucket of an entry. -/
def writeBucket (m : LimiterMap) (key : String) (b : TokenBucket) : LimiterMap :=
  fun k =>
    if k = key then
      match m key with
      | some e => some ⟨b, e.lastSeen⟩
      | none => none
    else m k

/-- `RateLimit` middleware, one request: get or create the limiter, call
`Allow`; on rejection answer 429 and leave `lastSeen` alone; on admission
update `lastSeen` and forward (result `none`). -/
def rateLimitStep (cfg : RateLimitConfig) (now : ℚ) (m : LimiterMap) (key : String) :
    LimiterMap × Option HttpResponse :=
  let em := getLimiter cfg now m key
  let ab := bucketAllow cfg now em.1.bucket
  let m2 := writeBucket em.2 key ab.2
  if ab.1 then (updateLastSeen now m2 key, none)
  else (m2, some (responseError 429))

/-- `cleanup`: evict every entry whose `lastSeen` is before
`now - cleanupInterval * 2`. -/
def cleanupSweep (cfg : RateLimitConfig) (now : ℚ) (m : LimiterMap) : LimiterMap :=
  fun k =>
    match m k with
    | some e =>
      if e.lastSeen < now - cfg.cleanupInterval * 2 then none else some e
    | none => none

/-- The map after `n` requests from `key`, all at time `now`. -/
def stepsAt (cfg : RateLimitConfig) (now : ℚ) (key : String) :
    Nat → LimiterMap → LimiterMap
  | 0, m => m
  | n + 1, m => (rateLimitStep cfg now (stepsAt cfg now key n m) key).1

/-! ### Concrete inputs used by witnesses -/

/-- A valid Stellar account address (from the repository's own docs). -/
def goodAddr : GoString :=
  strBytes "GAHK7EEG2WWHVKDNT4CEQFZGKF2LGDSW2IVM4S5DP42RBW3K6BTODB4A"

/-- A 56-character string starting with G whose strkey checksum is wrong
(also from the repository's docs). -/
def badAddr : GoString :=
  strBytes "GBQMRS5EK6FCKAYJ3Z57VZ6U6HKAHOWWZJ5B6Q7BWZL5U5M3CLFYYLRA"

/-- A signature verifier that rejects everything (stand-in for a key pair
whose signature does not match). -/
def neverValidSig : SigVerifier := fun _ _ _ => false

/-- A signature verifier that accepts everything (stand-in for a matching
key pair and signature). -/
def alwaysValidSig : SigVerifier := fun _ _ _ => true

/-! ### Helper lemmas -/

/-- Decimal digit strings contain no dot byte. -/
lemma decDigits_no_dot (n : Nat) : (46 : Nat) ∉ decDigits n := by
  induction n using Nat.strong_induction_on with
  | _ n ih =>
    rw [decDigits]
    split
    · intro hmem
      simp at hmem
      omega
    · intro hmem
      rcases List.mem_append.mp hmem with h1 | h2
      · exact ih (n / 10) (Nat.div_lt_self (by omega) (by omega)) h1
      · simp at h2
        omega

/-- A base32-decodable string contains no dot byte (the dot is not in the
alphabet). -/
lemma base32Decode_no_dot (s : GoString) :
    (base32Decode s).isSome = true → (46 : Nat) ∉ s := by
  induction s using base32Decode.induct with
  | case1 =>
    intro _ h
    simp at h
  | case2 c1 c2 c3 c4 c5 c6 c7 c8 rest v1 v2 v3 v4 v5 v6 v7 v8 h8 h7 h6 h5 h4 h3 h2 h1 tail htail ih =>
    intro hs hmem
    have hnot : ∀ c v, base32Val c = some v → c ≠ 46 := by
      intro c v hv hc
      rw [hc] at hv
      simp [base32Val] at hv
    simp only [List.mem_cons] at hmem
    rcases hmem with h | h | h | h | h | h | h | h | h
    · exact hnot c1 v1 h1 h.symm
    · exact hnot c2 v2 h2 h.symm
    · exact hnot c3 v3 h3 h.symm
    · exact hnot c4 v4 h4 h.symm
    · exact hnot c5 v5 h5 h.symm
    · exact hnot c6 v6 h6 h.symm
    · exact hnot c7 v7 h7 h.symm
    · exact hnot c8 v8 h8 h.symm
    · exact ih (by simp [htail]) h
  | case3 c1 c2 c3 c4 c5 c6 c7 c8 rest v1 v2 v3 v4 v5 v6 v7 v8 h8 h7 h6 h5 h4 h3 h2 h1 htail ih =>
    intro hs
    rw [base32Decode] at hs
    simp [h1, h2, h3, h4, h5, h6, h7, h8, htail] at hs
  | case4 c1 c2 c3 c4 c5 c6 c7 c8 rest hfail =>
    intro hs
    rw [base32Decode] at hs
    exfalso
    cases hv1 : base32Val c1 <;> cases hv2 : base32Val c2 <;> cases hv3 : base32Val c3 <;>
      cases hv4 : base32Val c4 <;> cases hv5 : base32Val c5 <;> cases hv6 : base32Val c6 <;>
      cases hv7 : base32Val c7 <;> cases hv8 : base32Val c8 <;>
      simp [hv1, hv2, hv3, hv4, hv5, hv6, hv7, hv8] at hs
    all_goals exact hfail _ _ _ _ _ _ _ _ hv1 hv2 hv3 hv4 hv5 hv6 hv7 hv8
  | case5 t hne hshape =>
    intro hs
    exfalso
    rcases t with _ | ⟨a1, _ | ⟨a2, _ | ⟨a3, _ | ⟨a4, _ | ⟨a5, _ | ⟨a6, _ | ⟨a7, _ | ⟨a8, rest⟩⟩⟩⟩⟩⟩⟩⟩
    · exact hne rfl
    · simp [base32Decode] at hs
    · simp [base32Decode] at hs
    · simp [base32Decode] at hs
    · simp [base32Decode] at hs
    · simp [base32Decode] at hs
    · simp [base32Decode] at hs
    · simp [base32Decode] at hs
    · exact hshape a1 a2 a3 a4 a5 a6 a7 a8 rest rfl

/-- A parseable address contains no dot byte. -/
lemma parseAddressOk_no_dot (s : GoString) (h : parseAddressOk s = true) :
    (46 : Nat) ∉ s := by
  apply base32Decode_no_dot
  rw [parseAddressOk] at h
  rcases hdec : base32Decode s with _ | raw
  · rw [hdec] at h
    simp at h
  · simp [hdec]

/-- A key accepted by the use-case check is parseable. -/
lemma ucValid_parseAddressOk (s : GoString) (h : ucIsValidStellarPublicKey s = true) :
    parseAddressOk s = true := by
  rw [ucIsValidStellarPublicKey] at h
  split at h
  · split at h
    · exact h
    · simp at h
  · simp at h

/-- Decimal digit strings are never empty. -/
lemma decDigits_ne_nil (n : Nat) : decDigits n ≠ [] := by
  rw [decDigits]
  split
  · simp
  · simp

/-! ### Claim theorems -/

/-- C1: `Execute(publicKey, signature, message)`: an invalid Stellar address
yields `is_owner=false` with an explanatory message and no error; a verifier
error yields an internal error and no output; a non-verifying signature
yields `is_owner=false` with no error; a verifying signature yields
`is_owner=true`. -/
theorem c1_execute_message_signature_cases (verify : SigVerifier)
    (input : VerifyOwnershipInput) :
    (ucIsValidStellarPublicKey input.publicKey = false →
      execute verify input = Except.ok ⟨false, "Invalid Stellar public key format"⟩) ∧
    (ucIsValidStellarPublicKey input.publicKey = true →
      ∀ e, verifySignatureWithSDK verify input.publicKey input.message input.signature =
        Except.error e →
      execute verify input = Except.error (NewInternalError "Failed to verify signature")) ∧
    (ucIsValidStellarPublicKey input.publicKey = true →
      verifySignatureWithSDK verify input.publicKey input.message input.signature =
        Except.ok false →
      execute verify input = Except.ok ⟨false, "Invalid signature or message"⟩) ∧
    (ucIsValidStellarPublicKey input.publicKey = true →
      verifySignatureWithSDK verify input.publicKey input.message input.signature =
        Except.ok true →
      execute verify input = Except.ok ⟨true, "Ownership verified successfully"⟩) := by
  refine ⟨fun h => ?_, fun h e he => ?_, fun h hv => ?_, fun h hv => ?_⟩
  · simp [execute, h]
  · simp [execute, h, he]
  · simp [execute, h, hv]
  · simp [execute, h, hv]

set_option maxRecDepth 6000 in
/-- C1 witness: the four cases at concrete inputs (the invalid key is a
56-character G-string with a broken checksum; `%%%` is not base64). -/
theorem c1_execute_message_signature_cases_witness :
    execute alwaysValidSig ⟨badAddr, strBytes "AA==", strBytes "m"⟩ =
      Except.ok ⟨false, "Invalid Stellar public key format"⟩ ∧
    execute neverValidSig ⟨goodAddr, strBytes "%%%", strBytes "m"⟩ =
      Except.error (NewInternalError "Failed to verify signature") ∧
    execute neverValidSig ⟨goodAddr, strBytes "AA==", strBytes "m"⟩ =
      Except.ok ⟨false, "Invalid signature or message"⟩ ∧
    execute alwaysValidSig ⟨goodAddr, strBytes "AA==", strBytes "m"⟩ =
      Except.ok ⟨true, "Ownership verified successfully"⟩ :=
  ⟨(c1_execute_message_signature_cases alwaysValidSig _).1 (by decide),
   (c1_execute_message_signature_cases neverValidSig _).2.1 (by decide)
     "failed to decode signature" (by decide),
   (c1_execute_message_signature_cases neverValidSig _).2.2.1 (by decide) (by decide),
   (c1_execute_message_signature_cases alwaysValidSig _).2.2.2 (by decide) (by decide)⟩

set_option maxRecDepth 6000 in
/-- C2 counterexample: a verify-ownership request whose signature is not
valid base64 is surfaced as an InternalError with status 500, not as a
ValidationError with a 400-class status, refuting the claim. -/
theorem c2_base64_validation_counterexample :
    goBase64Decode (strBytes "%%%") = none ∧
    execute neverValidSig ⟨goodAddr, strBytes "%%%", strBytes "challenge"⟩ =
      Except.error (NewInternalError "Failed to verify signature") ∧
    (NewInternalError "Failed to verify signature").etype = ErrorType.internal ∧
    (NewInternalError "Failed to verify signature").etype ≠ ErrorType.validation ∧
    (NewInternalError "Failed to verify signature").statusCode = 500 := by
  decide

set_option maxRecDepth 6000 in
/-- C2 amended: a signature that is not valid base64 makes `Execute` return
an InternalError (500-class), which is still distinct from "signature did
not verify" (that case is `is_owner=false` with no error). -/
theorem c2_base64_failure_is_internal_500 (verify : SigVerifier)
    (pk sig sigOk msg bs : GoString)
    (hpk : ucIsValidStellarPublicKey pk = true)
    (hbad : goBase64Decode sig = none)
    (hok : goBase64Decode sigOk = some bs)
    (hver : verify pk msg bs = false) :
    execute verify ⟨pk, sig, msg⟩ =
      Except.error (NewInternalError "Failed to verify signature") ∧
    (NewInternalError "Failed to verify signature").statusCode = 500 ∧
    execute verify ⟨pk, sigOk, msg⟩ =
      Except.ok ⟨false, "Invalid signature or message"⟩ := by
  have hparse := ucValid_parseAddressOk pk hpk
  refine ⟨?_, rfl, ?_⟩
  · simp [execute, hpk, verifySignatureWithSDK, hparse, hbad]
  · simp [execute, hpk, verifySignatureWithSDK, hparse, hok, hver]

set_option maxRecDepth 6000 in
/-- C2 amended witness at concrete inputs. -/
theorem c2_base64_failure_is_internal_500_witness :
    execute neverValidSig ⟨goodAddr, strBytes "%%%", strBytes "m"⟩ =
      Except.error (NewInternalError "Failed to verify signature") ∧
    (NewInternalError "Failed to verify signature").statusCode = 500 ∧
    execute neverValidSig ⟨goodAddr, strBytes "AA==", strBytes "m"⟩ =
      Except.ok ⟨false, "Invalid signature or message"⟩ :=
  c2_base64_failure_is_internal_500 neverValidSig goodAddr (strBytes "%%%")
    (strBytes "AA==") (strBytes "m") [0] (by decide) (by decide) (by decide) (by decide)

set_option maxRecDepth 6000 in
/-- C3: `VerifyOwnershipByTransaction` on a valid address: a ledger-client
error becomes a BlockchainError (502); a different source account yields
`is_owner=false` with no error; a close time more than 24 hours old yields
`is_owner=false` with no error; otherwise `is_owner=true`. -/
theorem c3_verify_by_transaction_cases
    (getTransaction : GoString → Option HorizonTransaction) (now : Int)
    (publicKey transactionHash : GoString)
    (hpk : ucIsValidStellarPublicKey publicKey = true) :
    (getTransaction transactionHash = none →
      verifyOwnershipByTransaction getTransaction now publicKey transactionHash =
        Except.error (NewBlockchainError "Failed to fetch transaction") ∧
      (NewBlockchainError "Failed to fetch transaction").statusCode = 502) ∧
    (∀ tx, getTransaction transactionHash = some tx → tx.sourceAccount ≠ publicKey →
      verifyOwnershipByTransaction getTransaction now publicKey transactionHash =
        Except.ok ⟨false, "Transaction was not signed by the specified wallet"⟩) ∧
    (∀ tx, getTransaction transactionHash = some tx → tx.sourceAccount = publicKey →
      now - tx.ledgerCloseTime > 24 * nanosPerHour →
      verifyOwnershipByTransaction getTransaction now publicKey transactionHash =
        Except.ok ⟨false, "Transaction is too old for ownership verification"⟩) ∧
    (∀ tx, getTransaction transactionHash = some tx → tx.sourceAccount = publicKey →
      ¬ (now - tx.ledgerCloseTime > 24 * nanosPerHour) →
      verifyOwnershipByTransaction getTransaction now publicKey transactionHash =
        Except.ok ⟨true, "Ownership verified via transaction"⟩) := by
  refine ⟨fun h => ⟨?_, rfl⟩, fun tx h hs => ?_, fun tx h hs ht => ?_,
    fun tx h hs ht => ?_⟩
  · simp [verifyOwnershipByTransaction, hpk, h]
  · simp [verifyOwnershipByTransaction, hpk, h, hs]
  · simp [verifyOwnershipByTransaction, hpk, h, hs, ht]
  · simp [verifyOwnershipByTransaction, hpk, h, hs, ht]

set_option maxRecDepth 6000 in
/-- C3 witness: the four cases at concrete inputs. -/
theorem c3_verify_by_transaction_cases_witness :
    verifyOwnershipByTransaction (fun _ => none) 0 goodAddr (strBytes "h") =
      Except.error (NewBlockchainError "Failed to fetch transaction") ∧
    verifyOwnershipByTransaction (fun _ => some ⟨badAddr, 0⟩) 0 goodAddr (strBytes "h") =
      Except.ok ⟨false, "Transaction was not signed by the specified wallet"⟩ ∧
    verifyOwnershipByTransaction (fun _ => some ⟨goodAddr, 0⟩) (25 * nanosPerHour)
        goodAddr (strBytes "h") =
      Except.ok ⟨false, "Transaction is too old for ownership verification"⟩ ∧
    verifyOwnershipByTransaction (fun _ => some ⟨goodAddr, 0⟩) 0 goodAddr (strBytes "h") =
      Except.ok ⟨true, "Ownership verified via transaction"⟩ :=
  ⟨((c3_verify_by_transaction_cases (fun _ => none) 0 goodAddr (strBytes "h")
      (by decide)).1 rfl).1,
   (c3_verify_by_transaction_cases (fun _ => some ⟨badAddr, 0⟩) 0 goodAddr (strBytes "h")
      (by decide)).2.1 ⟨badAddr, 0⟩ rfl (by decide),
   (c3_verify_by_transaction_cases (fun _ => some ⟨goodAddr, 0⟩) (25 * nanosPerHour)
      goodAddr (strBytes "h") (by decide)).2.2.1 ⟨goodAddr, 0⟩ rfl rfl (by decide),
   (c3_verify_by_transaction_cases (fun _ => some ⟨goodAddr, 0⟩) 0 goodAddr (strBytes "h")
      (by decide)).2.2.2 ⟨goodAddr, 0⟩ rfl rfl (by decide)⟩

/-- C4: `validateToken` errors when the header algorithm is not the HMAC
family (a distinct error kind), or the signature does not verify under the
configured secret, or the issuer claim differs from the configured issuer,
or the expiry is in the past; in every other case it returns the claims. -/
theorem c4_validate_token_cases (cfg : AuthConfig) (now : Int) (tok : SignedToken) :
    (isHMACAlg tok.alg = false →
      validateToken cfg now tok = Except.error AuthError.invalidSigningMethod) ∧
    (isHMACAlg tok.alg = true → tok.signedWith ≠ cfg.secretKey →
      validateToken cfg now tok = Except.error AuthError.signatureMismatch) ∧
    (isHMACAlg tok.alg = true → tok.signedWith = cfg.secretKey →
      tok.claims.issuer ≠ cfg.issuer →
      validateToken cfg now tok = Except.error AuthError.invalidTokenIssuer) ∧
    (isHMACAlg tok.alg = true → tok.signedWith = cfg.secretKey →
      tok.claims.issuer = cfg.issuer →
      ∀ exp, tok.claims.expiresAt = some exp → exp < now →
      validateToken cfg now tok = Except.error AuthError.tokenExpired) ∧
    (isHMACAlg tok.alg = true → tok.signedWith = cfg.secretKey →
      tok.claims.issuer = cfg.issuer → tok.claims.expiresAt = none →
      validateToken cfg now tok = Except.ok tok.claims) ∧
    (isHMACAlg tok.alg = true → tok.signedWith = cfg.secretKey →
      tok.claims.issuer = cfg.issuer →
      ∀ exp, tok.claims.expiresAt = some exp → now ≤ exp →
      validateToken cfg now tok = Except.ok tok.claims) := by
  refine ⟨fun ha => ?_, fun ha hs => ?_, fun ha hs hi => ?_,
    fun ha hs hi exp he hlt => ?_, fun ha hs hi he => ?_,
    fun ha hs hi exp he hle => ?_⟩
  · simp [validateToken, jwtParseWithClaims, ha]
  · simp [validateToken, jwtParseWithClaims, ha, hs]
  · simp [validateToken, jwtParseWithClaims, ha, hs, hi]
  · simp [validateToken, jwtParseWithClaims, ha, hs, hi, he, hlt]
  · simp [validateToken, jwtParseWithClaims, ha, hs, hi, he]
  · simp [validateToken, jwtParseWithClaims, ha, hs, hi, he, Int.not_lt.mpr hle]

/-- C4 witness: the six cases at concrete tokens. -/
theorem c4_validate_token_cases_witness :
    validateToken ⟨"k", 3600, "qf"⟩ 0 ⟨"RS256", ⟨"u", "r", "qf", "u", 0, none, none⟩, "k"⟩ =
      Except.error AuthError.invalidSigningMethod ∧
    validateToken ⟨"k", 3600, "qf"⟩ 0 ⟨"HS256", ⟨"u", "r", "qf", "u", 0, none, none⟩, "x"⟩ =
      Except.error AuthError.signatureMismatch ∧
    validateToken ⟨"k", 3600, "qf"⟩ 0 ⟨"HS256", ⟨"u", "r", "other", "u", 0, none, none⟩, "k"⟩ =
      Except.error AuthError.invalidTokenIssuer ∧
    validateToken ⟨"k", 3600, "qf"⟩ 50 ⟨"HS256", ⟨"u", "r", "qf", "u", 0, some 10, none⟩, "k"⟩ =
      Except.error AuthError.tokenExpired ∧
    validateToken ⟨"k", 3600, "qf"⟩ 0 ⟨"HS256", ⟨"u", "r", "qf", "u", 0, none, none⟩, "k"⟩ =
      Except.ok ⟨"u", "r", "qf", "u", 0, none, none⟩ ∧
    validateToken ⟨"k", 3600, "qf"⟩ 5 ⟨"HS256", ⟨"u", "r", "qf", "u", 0, some 10, none⟩, "k"⟩ =
      Except.ok ⟨"u", "r", "qf", "u", 0, some 10, none⟩ :=
  ⟨(c4_validate_token_cases _ 0 _).1 (by decide),
   (c4_validate_token_cases _ 0 _).2.1 (by decide) (by decide),
   (c4_validate_token_cases _ 0 _).2.2.1 (by decide) rfl (by decide),
   (c4_validate_token_cases _ 50 _).2.2.2.1 (by decide) rfl rfl 10 rfl (by decide),
   (c4_validate_token_cases _ 0 _).2.2.2.2.1 (by decide) rfl rfl rfl,
   (c4_validate_token_cases _ 5 _).2.2.2.2.2 (by decide) rfl rfl 10 rfl (by decide)⟩

/-- C5: validating a token freshly produced by `GenerateToken` with the same
configuration, before its expiry, succeeds and yields claims whose subject
and user-id equal the identity and whose role equals the role. -/
theorem c5_token_round_trip (cfg : AuthConfig) (t0 t1 : Int) (id role : String)
    (h : t1 < t0 + cfg.tokenDuration) :
    validateToken cfg t1 (generateToken cfg t0 id role) =
      Except.ok (generateToken cfg t0 id role).claims ∧
    (generateToken cfg t0 id role).claims.userID = id ∧
    (generateToken cfg t0 id role).claims.subject = id ∧
    (generateToken cfg t0 id role).claims.role = role := by
  refine ⟨?_, rfl, rfl, rfl⟩
  simp only [validateToken, jwtParseWithClaims, generateToken, isHMACAlg]
  norm_num
  omega

/-- C5 witness at a concrete configuration, identity and time. -/
theorem c5_token_round_trip_witness :
    (10 : Int) < 0 + 3600 ∧
    (validateToken ⟨"k", 3600, "qf"⟩ 10 (generateToken ⟨"k", 3600, "qf"⟩ 0 "user-1" "admin") =
      Except.ok (generateToken ⟨"k", 3600, "qf"⟩ 0 "user-1" "admin").claims ∧
    (generateToken ⟨"k", 3600, "qf"⟩ 0 "user-1" "admin").claims.userID = "user-1" ∧
    (generateToken ⟨"k", 3600, "qf"⟩ 0 "user-1" "admin").claims.subject = "user-1" ∧
    (generateToken ⟨"k", 3600, "qf"⟩ 0 "user-1" "admin").claims.role = "admin") :=
  ⟨by norm_num, c5_token_round_trip ⟨"k", 3600, "qf"⟩ 0 10 "user-1" "admin" (by norm_num)⟩

set_option maxRecDepth 6000 in
/-- C7 counterexample: with an injected domain that itself contains a dot
(`a.b`), the challenge for a valid key contains four dot separators, not
exactly three, refuting the claim as stated. -/
theorem c7_challenge_three_dots_counterexample :
    ucIsValidStellarPublicKey goodAddr = true ∧
    (generateChallenge (strBytes "a.b") 0 0 goodAddr).challenge ≠ [] ∧
    (generateChallenge (strBytes "a.b") 0 0 goodAddr).challenge.count 46 = 4 := by
  have hpk : ucIsValidStellarPublicKey goodAddr = true := by decide
  have hchal : (generateChallenge (strBytes "a.b") 0 0 goodAddr).challenge =
      decDigits 0 ++ 46 :: (decDigits 0 ++ 46 :: (strBytes "a.b" ++ 46 :: goodAddr)) := by
    simp [generateChallenge, hpk]
  have h1 : (decDigits 0).count 46 = 0 := List.count_eq_zero.mpr (decDigits_no_dot 0)
  have h3 : goodAddr.count 46 = 0 :=
    List.count_eq_zero.mpr (parseAddressOk_no_dot goodAddr
      (ucValid_parseAddressOk goodAddr hpk))
  refine ⟨hpk, ?_, ?_⟩
  · rw [hchal]
    simp
  · rw [hchal]
    simp [List.count_append, List.count_cons, h1, h3]
    decide

/-- C7 amended: for a parseable key, the challenge is non-empty and has the
form `unixSeconds.nonce.domain.publicKey`; it contains exactly three dot
separators whenever the injected domain contains no dot (as the default
configuration's domain does). -/
theorem c7_challenge_format (domain pk : GoString) (nowSec nowNano : Nat)
    (hpk : ucIsValidStellarPublicKey pk = true) (hdom : domain.count 46 = 0) :
    (generateChallenge domain nowSec nowNano pk).challenge =
      decDigits nowSec ++ 46 :: (decDigits nowNano ++ 46 :: (domain ++ 46 :: pk)) ∧
    (generateChallenge domain nowSec nowNano pk).challenge ≠ [] ∧
    (generateChallenge domain nowSec nowNano pk).challenge.count 46 = 3 := by
  have hchal : (generateChallenge domain nowSec nowNano pk).challenge =
      decDigits nowSec ++ 46 :: (decDigits nowNano ++ 46 :: (domain ++ 46 :: pk)) := by
    simp [generateChallenge, hpk]
  refine ⟨hchal, ?_, ?_⟩
  · rw [hchal]
    simp
  · rw [hchal]
    have h1 : (decDigits nowSec).count 46 = 0 :=
      List.count_eq_zero.mpr (decDigits_no_dot nowSec)
    have h2 : (decDigits nowNano).count 46 = 0 :=
      List.count_eq_zero.mpr (decDigits_no_dot nowNano)
    have h3 : pk.count 46 = 0 :=
      List.count_eq_zero.mpr (parseAddressOk_no_dot pk (ucValid_parseAddressOk pk hpk))
    simp [List.count_append, List.count_cons, h1, h2, h3, hdom]

set_option maxRecDepth 6000 in
/-- C7 amended witness at a concrete dot-free domain, key and time. -/
theorem c7_challenge_format_witness :
    (generateChallenge (strBytes "localhost") 1700000000 5 goodAddr).challenge =
      decDigits 1700000000 ++ 46 :: (decDigits 5 ++ 46 :: (strBytes "localhost" ++ 46 :: goodAddr)) ∧
    (generateChallenge (strBytes "localhost") 1700000000 5 goodAddr).challenge ≠ [] ∧
    (generateChallenge (strBytes "localhost") 1700000000 5 goodAddr).challenge.count 46 = 3 :=
  c7_challenge_format (strBytes "localhost") goodAddr 1700000000 5 (by decide) (by decide)

/-- C8: when an ownership-verification use case (message signature,
transaction, or account) returns `is_owner=false` with no error, the handler
writes status 401 while the JSON envelope still has `success=true`. -/
theorem c8_not_owner_envelope (verify : SigVerifier)
    (getTransaction : GoString → Option HorizonTransaction)
    (getAccount : GoString → Option HorizonAccount) (now : Int)
    (pk sig msg txh : GoString) (out1 out2 out3 : VerifyOwnershipOutput) :
    (sig ≠ [] → msg ≠ [] → execute verify ⟨pk, sig, msg⟩ = Except.ok out1 →
      out1.isOwner = false →
      handleVerifyOwnership verify pk sig msg = ⟨401, true⟩) ∧
    (txh ≠ [] →
      verifyOwnershipByTransaction getTransaction now pk txh = Except.ok out2 →
      out2.isOwner = false →
      handleVerifyByTransaction getTransaction now pk txh = ⟨401, true⟩) ∧
    (handlerIsValidStellarPublicKey pk = true →
      verifyOwnershipByAccount getAccount now pk = Except.ok out3 →
      out3.isOwner = false →
      handleVerifyByAccount getAccount now pk = ⟨401, true⟩) := by
  refine ⟨fun hs hm he hio => ?_, fun ht he hio => ?_, fun hv he hio => ?_⟩
  · simp [handleVerifyOwnership, hs, hm, he, hio, responseSuccess]
  · simp [handleVerifyByTransaction, ht, he, hio, responseSuccess]
  · simp [handleVerifyByAccount, hv, he, hio, responseSuccess]

set_option maxRecDepth 6000 in
/-- C8 witness: the three handlers at concrete not-owner requests. -/
theorem c8_not_owner_envelope_witness :
    handleVerifyOwnership neverValidSig goodAddr (strBytes "AA==") (strBytes "m") =
      ⟨401, true⟩ ∧
    handleVerifyByTransaction (fun _ => some ⟨badAddr, 0⟩) 0 goodAddr (strBytes "h") =
      ⟨401, true⟩ ∧
    handleVerifyByAccount (fun _ => none) 0 goodAddr = ⟨401, true⟩ :=
  ⟨(c8_not_owner_envelope neverValidSig (fun _ => none) (fun _ => none) 0 goodAddr
      (strBytes "AA==") (strBytes "m") (strBytes "h")
      ⟨false, "Invalid signature or message"⟩ ⟨false, ""⟩ ⟨false, ""⟩).1
      (by decide) (by decide) (by decide) rfl,
   (c8_not_owner_envelope neverValidSig (fun _ => some ⟨badAddr, 0⟩) (fun _ => none) 0
      goodAddr (strBytes "AA==") (strBytes "m") (strBytes "h") ⟨false, ""⟩
      ⟨false, "Transaction was not signed by the specified wallet"⟩ ⟨false, ""⟩).2.1
      (by decide) (by decide) rfl,
   (c8_not_owner_envelope neverValidSig (fun _ => none) (fun _ => none) 0 goodAddr
      (strBytes "AA==") (strBytes "m") (strBytes "h") ⟨false, ""⟩ ⟨false, ""⟩
      ⟨false, "Account not found on Stellar network"⟩).2.2
      (by decide) (by decide) rfl⟩

set_option maxRecDepth 6000 in
/-- C10: the handler-level key check is total (the byte access is guarded by
the length conjunct) and holds exactly when the string has length 56 and
leading byte G; the use-case check implies it, and is strictly stronger
because it additionally requires a successful SDK address parse. -/
theorem c10_handler_key_format_check :
    (∀ s : GoString, handlerIsValidStellarPublicKey s = true ↔
      (s.length = 56 ∧ s.head? = some 71)) ∧
    (∀ s : GoString, ucIsValidStellarPublicKey s = true →
      handlerIsValidStellarPublicKey s = true) ∧
    (handlerIsValidStellarPublicKey badAddr = true ∧
      ucIsValidStellarPublicKey badAddr = false) := by
  refine ⟨fun s => ?_, fun s h => ?_, ?_, ?_⟩
  · constructor
    · intro h
      rw [handlerIsValidStellarPublicKey] at h
      split at h
      case isTrue hl =>
        refine ⟨hl, ?_⟩
        rcases s with _ | ⟨a, t⟩
        · simp at hl
        · simp at h
          simp [h]
      case isFalse => simp at h
    · rintro ⟨hl, hh⟩
      rw [handlerIsValidStellarPublicKey, dif_pos hl]
      rcases s with _ | ⟨a, t⟩
      · simp at hl
      · simp at hh
        simp [hh]
  · rw [ucIsValidStellarPublicKey] at h
    rw [handlerIsValidStellarPublicKey]
    split at h
    case isTrue hl =>
      rw [dif_pos hl]
      split at h
      case isTrue hg => exact hg
      case isFalse => simp at h
    case isFalse => simp at h
  · decide
  · decide

set_option maxRecDepth 6000 in
/-- C10 witness: a parseable key passes both checks; the implication of the
theorem is applied at the concrete valid address. -/
theorem c10_handler_key_format_check_witness :
    ucIsValidStellarPublicKey goodAddr = true ∧
    handlerIsValidStellarPublicKey goodAddr = true :=
  ⟨by decide, c10_handler_key_format_check.2.1 goodAddr (by decide)⟩

/-! ### Rate limiter step lemmas -/

/-- A request from an unseen key inserts a full bucket, spends one token and
is admitted (when the burst size is at least one). -/
lemma rateLimitStep_fresh (cfg : RateLimitConfig) (now : ℚ) (m : LimiterMap)
    (key : String) (h : m key = none) (hB : (1 : ℚ) ≤ (cfg.burstSize : ℚ)) :
    (rateLimitStep cfg now m key).1 key =
      some ⟨⟨(cfg.burstSize : ℚ) - 1, now⟩, now⟩ ∧
    (rateLimitStep cfg now m key).2 = none := by
  have hadv : bucketAdvance cfg now (newBucket cfg now) = (cfg.burstSize : ℚ) := by
    simp [bucketAdvance, newBucket]
  constructor
  · simp [rateLimitStep, getLimiter, h, bucketAllow, hadv, hB, updateLastSeen, writeBucket]
  · simp [rateLimitStep, getLimiter, h, bucketAllow, hadv, hB]

/-- A request from a key with an entry holding at least one (refilled) token
spends one token, refreshes `lastSeen` and is admitted. -/
lemma rateLimitStep_existing_allowed (cfg : RateLimitConfig) (now : ℚ)
    (m : LimiterMap) (key : String) (e : LimiterEntry) (hm : m key = some e)
    (hadv : 1 ≤ bucketAdvance cfg now e.bucket) :
    (rateLimitStep cfg now m key).1 key =
      some ⟨⟨bucketAdvance cfg now e.bucket - 1, now⟩, now⟩ ∧
    (rateLimitStep cfg now m key).2 = none := by
  constructor
  · simp [rateLimitStep, getLimiter, hm, bucketAllow, hadv, updateLastSeen, writeBucket]
  · simp [rateLimitStep, getLimiter, hm, bucketAllow, hadv]

/-- A request from a key whose entry has less than one token is rejected
with 429 and leaves the entry untouched. -/
lemma rateLimitStep_existing_rejected (cfg : RateLimitConfig) (now : ℚ)
    (m : LimiterMap) (key : String) (e : LimiterEntry) (hm : m key = some e)
    (hadv : ¬ 1 ≤ bucketAdvance cfg now e.bucket) :
    (rateLimitStep cfg now m key).1 key = some e ∧
    (rateLimitStep cfg now m key).2 = some (responseError 429) := by
  constructor
  · simp [rateLimitStep, getLimiter, hm, bucketAllow, hadv, writeBucket]
  · simp [rateLimitStep, getLimiter, hm, bucketAllow, hadv]

/-- After `k` immediate requests from a fresh key (with `1 ≤ k ≤ burst`),
the key's entry holds `burst - k` tokens. -/
lemma stepsAt_entry (cfg : RateLimitConfig) (t : ℚ) (key : String)
    (hB : 1 ≤ cfg.burstSize) :
    ∀ k, 1 ≤ k → k ≤ cfg.burstSize →
      stepsAt cfg t key k emptyLimiterMap key =
        some ⟨⟨(cfg.burstSize : ℚ) - (k : ℚ), t⟩, t⟩ := by
  intro k
  induction k with
  | zero => omega
  | succ n ih =>
    intro _ hle
    rcases Nat.eq_zero_or_pos n with hn | hn
    · subst hn
      have hB' : (1 : ℚ) ≤ (cfg.burstSize : ℚ) := by exact_mod_cast hB
      have := (rateLimitStep_fresh cfg t (stepsAt cfg t key 0 emptyLimiterMap) key
        (by simp [stepsAt, emptyLimiterMap]) hB').1
      rw [stepsAt]
      rw [this]
      norm_num
    · have hprev := ih (by omega) (by omega)
      have hcast : ((n : ℚ)) ≤ (cfg.burstSize : ℚ) - 1 := by
        have : n + 1 ≤ cfg.burstSize := hle
        have : ((n : ℚ)) + 1 ≤ (cfg.burstSize : ℚ) := by exact_mod_cast this
        linarith
      have hadv : bucketAdvance cfg t ⟨(cfg.burstSize : ℚ) - (n : ℚ), t⟩ =
          (cfg.burstSize : ℚ) - (n : ℚ) := by
        simp [bucketAdvance]
      have hge : 1 ≤ bucketAdvance cfg t
          (⟨⟨(cfg.burstSize : ℚ) - (n : ℚ), t⟩, t⟩ : LimiterEntry).bucket := by
        simp only [hadv]
        linarith
      have hstep := (rateLimitStep_existing_allowed cfg t
        (stepsAt cfg t key n emptyLimiterMap) key _ hprev hge).1
      rw [stepsAt]
      rw [hstep]
      simp only [hadv]
      norm_num
      ring_nf

/-- C6: from a fresh key, exactly `burstSize` immediate requests are
admitted, the next immediate request is rejected with HTTP 429, and one more
request is admitted once at least `1 / requestsPerSecond` seconds have
elapsed. -/
theorem c6_rate_limiter_burst (cfg : RateLimitConfig) (key : String) (t tl : ℚ)
    (hR : 0 < cfg.requestsPerSecond) (hB : 1 ≤ cfg.burstSize)
    (hw : 1 / cfg.requestsPerSecond ≤ tl - t) :
    (∀ k, k < cfg.burstSize →
      (rateLimitStep cfg t (stepsAt cfg t key k emptyLimiterMap) key).2 = none) ∧
    (rateLimitStep cfg t (stepsAt cfg t key cfg.burstSize emptyLimiterMap) key).2 =
      some (responseError 429) ∧
    (rateLimitStep cfg tl
      ((rateLimitStep cfg t (stepsAt cfg t key cfg.burstSize emptyLimiterMap) key).1)
      key).2 = none := by
  have hB' : (1 : ℚ) ≤ (cfg.burstSize : ℚ) := by exact_mod_cast hB
  have hfull := stepsAt_entry cfg t key hB cfg.burstSize hB (le_refl _)
  have hadv0 : bucketAdvance cfg t
      (⟨⟨(cfg.burstSize : ℚ) - (cfg.burstSize : ℚ), t⟩, t⟩ : LimiterEntry).bucket = 0 := by
    simp [bucketAdvance]
  have hrej := rateLimitStep_existing_rejected cfg t
    (stepsAt cfg t key cfg.burstSize emptyLimiterMap) key _ hfull
    (by rw [hadv0]; norm_num)
  refine ⟨?_, hrej.2, ?_⟩
  · intro k hk
    rcases Nat.eq_zero_or_pos k with h0 | h0
    · subst h0
      exact (rateLimitStep_fresh cfg t _ key (by simp [stepsAt, emptyLimiterMap]) hB').2
    · have hent := stepsAt_entry cfg t key hB k h0 (by omega)
      have hcast : ((k : ℚ)) ≤ (cfg.burstSize : ℚ) - 1 := by
        have : (k : ℚ) + 1 ≤ (cfg.burstSize : ℚ) := by exact_mod_cast hk
        linarith
      have hadv : bucketAdvance cfg t
          (⟨⟨(cfg.burstSize : ℚ) - (k : ℚ), t⟩, t⟩ : LimiterEntry).bucket =
          (cfg.burstSize : ℚ) - (k : ℚ) := by
        simp [bucketAdvance]
      exact (rateLimitStep_existing_allowed cfg t _ key _ hent
        (by rw [hadv]; linarith)).2
  · have hwait : 1 ≤ (tl - t) * cfg.requestsPerSecond := by
      rw [div_le_iff₀ hR] at hw
      linarith
    have hadv : bucketAdvance cfg tl
        (⟨⟨(cfg.burstSize : ℚ) - (cfg.burstSize : ℚ), t⟩, t⟩ : LimiterEntry).bucket =
        min (cfg.burstSize : ℚ) ((tl - t) * cfg.requestsPerSecond) := by
      simp [bucketAdvance]
    exact (rateLimitStep_existing_allowed cfg tl _ key _ hrej.1
      (by rw [hadv]; exact le_min hB' hwait)).2

/-- C6 witness: burst 2, rate 1 per second, requests at time 0 and one more
at time 1. -/
theorem c6_rate_limiter_burst_witness :
    (0 : ℚ) < 1 ∧ 1 ≤ 2 ∧ (1 : ℚ) / 1 ≤ 1 - 0 ∧
    ((∀ k, k < 2 →
      (rateLimitStep ⟨1, 2, 60⟩ 0 (stepsAt ⟨1, 2, 60⟩ 0 "10.0.0.1" k emptyLimiterMap)
        "10.0.0.1").2 = none) ∧
    (rateLimitStep ⟨1, 2, 60⟩ 0 (stepsAt ⟨1, 2, 60⟩ 0 "10.0.0.1" 2 emptyLimiterMap)
      "10.0.0.1").2 = some (responseError 429) ∧
    (rateLimitStep ⟨1, 2, 60⟩ 1
      ((rateLimitStep ⟨1, 2, 60⟩ 0 (stepsAt ⟨1, 2, 60⟩ 0 "10.0.0.1" 2 emptyLimiterMap)
        "10.0.0.1").1) "10.0.0.1").2 = none) :=
  ⟨by norm_num, by norm_num, by norm_num,
   c6_rate_limiter_burst ⟨1, 2, 60⟩ "10.0.0.1" 0 1 (by norm_num) (by norm_num) (by norm_num)⟩

/-- C9: a request rejected by the limiter leaves the client's map entry
exactly as it was (`updateLastSeen` runs only after an admitted request), is
answered with 429, and the stale entry is evicted by any later cleanup sweep
whose cutoff has passed its `lastSeen` (making a fresh full burst possible
afterwards). -/
theorem c9_rejected_request_keeps_entry (cfg : RateLimitConfig) (now : ℚ)
    (m : LimiterMap) (key : String) (e : LimiterEntry) (hm : m key = some e)
    (hrej : ¬ 1 ≤ bucketAdvance cfg now e.bucket) :
    (rateLimitStep cfg now m key).1 key = some e ∧
    (rateLimitStep cfg now m key).2 = some (responseError 429) ∧
    (∀ tc, e.lastSeen < tc - cfg.cleanupInterval * 2 →
      cleanupSweep cfg tc ((rateLimitStep cfg now m key).1) key = none) := by
  have h := rateLimitStep_existing_rejected cfg now m key e hm hrej
  refine ⟨h.1, h.2, fun tc htc => ?_⟩
  simp [cleanupSweep, h.1, htc]

/-- C9 witness: an exhausted entry, a rejected request at time 0, and a sweep
at time 1000 with a 60-second cleanup interval. -/
theorem c9_rejected_request_keeps_entry_witness :
    ((fun k => if k = "10.0.0.9" then some (⟨⟨0, 0⟩, 0⟩ : LimiterEntry) else none) :
      LimiterMap) "10.0.0.9" = some ⟨⟨0, 0⟩, 0⟩ ∧
    (rateLimitStep ⟨1, 2, 60⟩ 0
      (fun k => if k = "10.0.0.9" then some ⟨⟨0, 0⟩, 0⟩ else none) "10.0.0.9").1
      "10.0.0.9" = some ⟨⟨0, 0⟩, 0⟩ ∧
    (rateLimitStep ⟨1, 2, 60⟩ 0
      (fun k => if k = "10.0.0.9" then some ⟨⟨0, 0⟩, 0⟩ else none) "10.0.0.9").2 =
      some (responseError 429) ∧
    cleanupSweep ⟨1, 2, 60⟩ 1000
      ((rateLimitStep ⟨1, 2, 60⟩ 0
        (fun k => if k = "10.0.0.9" then some ⟨⟨0, 0⟩, 0⟩ else none) "10.0.0.9").1)
      "10.0.0.9" = none := by
  have h := c9_rejected_request_keeps_entry ⟨1, 2, 60⟩ 0
    (fun k => if k = "10.0.0.9" then some ⟨⟨0, 0⟩, 0⟩ else none) "10.0.0.9"
    ⟨⟨0, 0⟩, 0⟩ (by norm_num) (by simp [bucketAdvance])
  exact ⟨by norm_num, h.1, h.2.1, h.2.2 1000 (by norm_num)⟩

end QuasarFlow
